import Mathlib

/-!
Verification of the fetch–normalize–render pipeline of `src/web/server.py`
(the `shinzonetwork/indexer` web view).

The Python source is shallowly embedded:

* `fetch_graphql_data` mirrors the helper of the same name: it receives a
  description of what the HTTP transport did (`TransportResult`) and returns
  the parsed JSON payload on a 200 response, and `none` on a non-200 status,
  on a body that fails JSON parsing, or on any raised exception (the helper's
  bare `except Exception` catches everything, including
  `httpx.TimeoutException`).
* `homeBody` mirrors the body of the `try:` block of the `home` route
  (lines 78–124): exceptions raised inside it (`KeyError` on a missing
  `"number"`, `ValueError` from `int(...)`, `AttributeError` when `"data"`
  is JSON `null`) are modelled with `Except`.
* `homeRoute` adds the two `except` handlers (lines 126–131) and produces the
  template context; `home` is the resulting total route.

Python's `list.sort(key=..., reverse=True)` is a stable descending sort; any
two stable sorts for the same key agree, so it is embedded as Mathlib's
(stable) `List.insertionSort` with the relation "key of the left argument is
greater than or equal to key of the right argument".

CPython exception message texts are abbreviated (no claim depends on the
exact `str(e)` of a `KeyError`/`ValueError`); strings produced by f-string
interpolation of the GraphQL `errors` value are modelled by carrying that
value as the string Python would format it to.
-/

/-- A transaction record as selected by the GraphQL query.  The normalizer
never inspects these fields; they are carried through verbatim.  The source
field names `from` and `to` are Lean keywords / reserved here, so they are
suffixed. -/
structure Transaction where
  hash : String
  blockNumber : String
  fromAddr : String
  toAddr : String
  value : String
  gas : String
deriving DecidableEq, Repr

/-- A block record as selected by the GraphQL query.  `number?` is `none`
when the JSON object lacks a `"number"` key (subscripting then raises
`KeyError`); `transactions?` is `none` when the `"transactions"` key is
absent (`block.get("transactions")` then returns `None`, which is falsy). -/
structure Block where
  hash : String
  number? : Option String
  time : String
  gasUsed : String
  gasLimit : String
  size : String
  transactions? : Option (List Transaction)
deriving DecidableEq, Repr

/-- The value of the top-level `"data"` key of a GraphQL response: either
JSON `null` (on which `.get` raises `AttributeError`) or an object whose
optional `"Block"` key holds the block array. -/
inductive DataVal where
  | null : DataVal
  | obj : Option (List Block) → DataVal
deriving DecidableEq, Repr

/-- A parsed 200-response JSON object.  `data?`/`errors?` are `none` when the
corresponding top-level key is absent.  The `errors` value is carried as the
string Python's f-string would format it to.  (Keys other than `"data"` and
`"errors"` are never consulted by the code and are not modelled; the dict is
truthy exactly when it is non-empty, which for the modelled keys means one of
them is present.) -/
structure Payload where
  data? : Option DataVal
  errors? : Option String
deriving DecidableEq, Repr

/-- A Python exception, as far as this code can observe one:
`httpx.TimeoutException` (matched by its own `except` clause in `home`), or
any other exception carrying its `str(e)` rendering. -/
inductive PyExn where
  | timeout : PyExn
  | exn : String → PyExn
deriving DecidableEq, Repr

/-- `str(e)` for an exception. -/
def PyExn.str : PyExn → String
  | .timeout => "timed out"
  | .exn s => s

/-- What the HTTP transport did for the single outbound POST:
`ok status body json?` is a response with the given status code and body text
(`json?` is the parse of the body, `none` when `response.json()` raises);
`raises e` means `client.post` raised `e` (timeout, connection reset, ...). -/
inductive TransportResult where
  | ok : Nat → String → Option Payload → TransportResult
  | raises : PyExn → TransportResult
deriving DecidableEq, Repr

/-- Embedding of `fetch_graphql_data` (lines 45–66): on status 200 return
`response.json()` (a parse failure raises and is caught, giving `None`); on
any other status return `None` (the body is only logged, never returned); any
exception from the transport is caught by the bare `except` and gives
`None`. -/
def fetch_graphql_data : TransportResult → Option Payload
  | .ok status _ json? => if status = 200 then json? else none
  | .raises _ => none

/-! ### The sort key (line 107)

`int(b["number"], 16) if b["number"].startswith("0x") else int(b["number"])`.

`int(s, 16)` and `int(s)` are modelled on the fragment of inputs this route
can meet: an optional sign, for base 16 an optional `0x`/`0X` prefix, then
digits of the base; every other string is a parse failure (`ValueError`).
-/

/-- Value of a hexadecimal digit character. -/
def hexDigit? (c : Char) : Option Nat :=
  if '0' ≤ c ∧ c ≤ '9' then some (c.toNat - '0'.toNat)
  else if 'a' ≤ c ∧ c ≤ 'f' then some (c.toNat - 'a'.toNat + 10)
  else if 'A' ≤ c ∧ c ≤ 'F' then some (c.toNat - 'A'.toNat + 10)
  else none

/-- Value of a decimal digit character. -/
def decDigit? (c : Char) : Option Nat :=
  if '0' ≤ c ∧ c ≤ '9' then some (c.toNat - '0'.toNat) else none

/-- Read a non-empty digit string in the given base; `none` on the empty
string or any non-digit character. -/
def digitsToNat (digit? : Char → Option Nat) (base : Nat) : List Char → Option Nat
  | [] => none
  | cs => cs.foldl (fun acc c =>
      match acc, digit? c with
      | some n, some d => some (base * n + d)
      | _, _ => none) (some 0)

/-- Strip an optional leading sign, returning it as `1` or `-1`. -/
def stripSign : List Char → Int × List Char
  | '-' :: cs => (-1, cs)
  | '+' :: cs => (1, cs)
  | cs => (1, cs)

/-- Strip an optional `0x` / `0X` prefix (accepted by `int(·, 16)`). -/
def strip0x : List Char → List Char
  | '0' :: 'x' :: cs => cs
  | '0' :: 'X' :: cs => cs
  | cs => cs

/-- Embedding of Python `int(s, 16)`. -/
def pyIntHex (s : String) : Option Int :=
  let (sign, cs) := stripSign s.toList
  (digitsToNat hexDigit? 16 (strip0x cs)).map (fun n => sign * (n : Int))

/-- Embedding of Python `int(s)`. -/
def pyIntDec (s : String) : Option Int :=
  let (sign, cs) := stripSign s.toList
  (digitsToNat decDigit? 10 cs).map (fun n => sign * (n : Int))

/-- `s.startswith("0x")` — note the lowercase-only prefix test of the
source. -/
def startsWith0x (s : String) : Bool :=
  match s.toList with
  | '0' :: 'x' :: _ => true
  | _ => false

/-- The numeric sort key of a `"number"` string (line 107):
hex parse when it starts with `"0x"`, decimal parse otherwise. -/
def numberKey (s : String) : Option Int :=
  if startsWith0x s then pyIntHex s else pyIntDec s

/-- The sort key of a block, with the exception Python would raise:
`KeyError` when `"number"` is absent, `ValueError` when it does not parse. -/
def sortKeyE (b : Block) : Except PyExn Int :=
  match b.number? with
  | none => .error (.exn "KeyError: 'number'")
  | some s =>
    match numberKey s with
    | some k => .ok k
    | none => .error (.exn ("invalid literal for int(): " ++ s))

/-- The sort key of a block, when it exists. -/
def sortKey (b : Block) : Option Int :=
  (sortKeyE b).toOption

/-- Total version of the key used by the comparator once all keys are known
to parse (the sort only runs after key computation has succeeded). -/
def keyD (b : Block) : Int :=
  (sortKey b).getD 0

/-- The descending comparison on blocks used by
`sort(key=..., reverse=True)`: `a` may come before `b` when `a`'s key is
greater than or equal to `b`'s. -/
def blockGe (a b : Block) : Prop :=
  keyD b ≤ keyD a

instance : DecidableRel blockGe := fun a b => (inferInstance : Decidable (keyD b ≤ keyD a))

instance : IsTotal Block blockGe := ⟨fun a b => (le_total (keyD b) (keyD a)).imp id id⟩

instance : IsTrans Block blockGe := ⟨fun _ _ _ hab hbc => le_trans hbc hab⟩

/-- Stable descending sort of the block list (line 107). -/
def sortBlocks (bs : List Block) : List Block :=
  bs.insertionSort blockGe

/-- Computing the sort key of every block, left to right, stopping at the
first failure — what `list.sort(key=...)` does before reordering anything. -/
def computeKeys : List Block → Except PyExn (List Int)
  | [] => .ok []
  | b :: bs =>
    match sortKeyE b with
    | .error e => .error e
    | .ok k =>
      match computeKeys bs with
      | .error e => .error e
      | .ok ks => .ok (k :: ks)

/-- Embedding of the flattening loop (lines 111–115): walk the sorted blocks
and extend the accumulator with each block's transaction list when
`block.get("transactions")` is truthy (present and non-empty). -/
def flattenTxs (bs : List Block) : List Transaction :=
  bs.foldl (fun acc b =>
    match b.transactions? with
    | some ts => if ts.isEmpty then acc else acc ++ ts
    | none => acc) []

/-- The state the `try:` body of `home` ends in when no exception escapes it:
the `data["blocks"]` / `data["transactions"]` entries and the `error`
variable. -/
structure HomeState where
  blocks : List Block
  transactions : List Transaction
  error : Option String
deriving DecidableEq, Repr

/-- The template context `home` hands to rendering: the `data` dict (`logs`
and `events` are reserved and always empty) plus `error`. -/
structure ViewModel where
  blocks : List Block
  transactions : List Transaction
  logs : List String
  events : List String
  error : Option String
deriving DecidableEq, Repr

/-- A ViewModel with empty data lists and the given error. -/
def emptyVM (err : Option String) : ViewModel :=
  { blocks := [], transactions := [], logs := [], events := [], error := err }

/-- Embedding of the body of the `try:` block of `home` (lines 78–124), for a
given transport behaviour.  An `Except.error` is an exception escaping the
body into the handlers of lines 126–131. -/
def homeBody (t : TransportResult) : Except PyExn HomeState :=
  match fetch_graphql_data t with
  | some payload =>
    match payload.data? with
    | some .null =>
      -- blocks_data["data"].get("Block", []) with "data": null
      .error (.exn "'NoneType' object has no attribute 'get'")
    | some (.obj block?) =>
      let blocks := block?.getD []
      match computeKeys blocks with
      | .error e => .error e
      | .ok _ =>
        let sorted := sortBlocks blocks
        .ok { blocks := sorted, transactions := flattenTxs sorted, error := none }
    | none =>
      -- no "data" key: check "errors" (a present key makes the dict truthy)
      match payload.errors? with
      | some errs => .ok { blocks := [], transactions := [], error := some ("GraphQL Error: " ++ errs) }
      | none => .ok { blocks := [], transactions := [], error := some "Failed to fetch data from DefraDB" }
  | none =>
    -- blocks_data is None: falsy, so both `if` conditions fail
    .ok { blocks := [], transactions := [], error := some "Failed to fetch data from DefraDB" }

/-- Embedding of the whole `home` handler (lines 68–145): the `try:` body
followed by the `except httpx.TimeoutException` and `except Exception`
handlers.  An `Except.error` result would be an exception reaching the route
layer unhandled. -/
def homeRoute (t : TransportResult) : Except PyExn ViewModel :=
  match homeBody t with
  | .ok s => .ok { blocks := s.blocks, transactions := s.transactions,
                   logs := [], events := [], error := s.error }
  | .error .timeout => .ok (emptyVM (some "Request to DefraDB timed out. The service might be busy."))
  | .error e => .ok (emptyVM (some ("Failed to fetch data from DefraDB: " ++ e.str)))

/-- The rendered ViewModel of a request (total: `homeRoute` never errors,
which claim C7 records). -/
def home (t : TransportResult) : ViewModel :=
  (homeRoute t).toOption.getD (emptyVM none)

/-- A successful 200 response whose payload is
`{"data": {"Block": <bs>}}`. -/
def successResult (bs : List Block) : TransportResult :=
  .ok 200 "" (some { data? := some (.obj (some bs)), errors? := none })

/-- The transport outcome after a run of `home`: the only observable mutation
a run performs on its input data is that, on the success-with-data path where
every key parses, `blocks.sort(...)` reorders the payload's `Block` array in
place.  On every other path (no 200 payload, no `"data"`, `"data"` null,
missing `"Block"` key — whose default `[]` is a fresh list — or a key that
fails to parse, in which case CPython restores the list unreordered) the
payload is unchanged. -/
def afterRun (t : TransportResult) : TransportResult :=
  match t with
  | .ok status body (some { data? := some (.obj (some bs)), errors? := errs? }) =>
    if status = 200 then
      if bs.all (fun b => (sortKey b).isSome) then
        .ok status body (some { data? := some (.obj (some (sortBlocks bs))), errors? := errs? })
      else .ok status body (some { data? := some (.obj (some bs)), errors? := errs? })
    else .ok status body (some { data? := some (.obj (some bs)), errors? := errs? })
  | t => t

/-- Successful extraction of block data: a 200 response whose payload has a
`"data"` object, and every block of its (possibly defaulted) `Block` list has
a parseable `"number"`. -/
def extractionOk (t : TransportResult) : Prop :=
  ∃ body block? errs?,
    t = .ok 200 body (some { data? := some (.obj block?), errors? := errs? })
    ∧ ∀ b ∈ block?.getD [], (sortKey b).isSome

/-! ### Helper lemmas -/

theorem flattenTxs_step (acc : List Transaction) (b : Block) :
    (match b.transactions? with
      | some ts => if ts.isEmpty then acc else acc ++ ts
      | none => acc) = acc ++ b.transactions?.getD [] := by
  match h : b.transactions? with
  | none => simp
  | some ts => cases ts <;> simp

theorem flattenTxs_aux (bs : List Block) :
    ∀ acc : List Transaction,
      bs.foldl (fun acc b =>
        match b.transactions? with
        | some ts => if ts.isEmpty then acc else acc ++ ts
        | none => acc) acc = acc ++ (bs.map (fun b => b.transactions?.getD [])).flatten := by
  induction bs with
  | nil => intro acc; simp
  | cons b bs ih =>
    intro acc
    simp only [List.foldl_cons, List.map_cons, List.flatten_cons]
    rw [flattenTxs_step, ih, List.append_assoc]

/-- The flattening loop concatenates the per-block transaction lists in block
order. -/
theorem flattenTxs_eq (bs : List Block) :
    flattenTxs bs = (bs.map (fun b => b.transactions?.getD [])).flatten := by
  unfold flattenTxs
  rw [flattenTxs_aux bs [], List.nil_append]

theorem sortKeyE_error_exn (b : Block) (e : PyExn) (h : sortKeyE b = .error e) :
    ∃ m, e = .exn m := by
  unfold sortKeyE at h
  split at h
  · exact ⟨_, (Except.error.inj h).symm⟩
  · split at h
    · exact absurd h (by simp)
    · exact ⟨_, (Except.error.inj h).symm⟩

theorem sortKey_isSome_iff (b : Block) :
    (sortKey b).isSome = true ↔ ∃ k, sortKeyE b = .ok k := by
  unfold sortKey
  cases h : sortKeyE b <;> simp [Except.toOption]

theorem computeKeys_ok (bs : List Block) (h : ∀ b ∈ bs, (sortKey b).isSome) :
    ∃ ks, computeKeys bs = .ok ks := by
  induction bs with
  | nil => exact ⟨[], rfl⟩
  | cons b bs ih =>
    obtain ⟨k, hk⟩ := (sortKey_isSome_iff b).mp (h b (List.mem_cons_self b bs))
    obtain ⟨ks, hks⟩ := ih (fun b' hb' => h b' (List.mem_cons_of_mem b hb'))
    exact ⟨k :: ks, by simp [computeKeys, hk, hks]⟩

theorem computeKeys_error (bs : List Block) (h : ∃ b ∈ bs, sortKey b = none) :
    ∃ m, computeKeys bs = .error (.exn m) := by
  induction bs with
  | nil => simp at h
  | cons b bs ih =>
    cases hb : sortKeyE b with
    | error e =>
      obtain ⟨m, rfl⟩ := sortKeyE_error_exn b e hb
      exact ⟨m, by simp [computeKeys, hb]⟩
    | ok k =>
      have hbs : ∃ b' ∈ bs, sortKey b' = none := by
        obtain ⟨b', hb', hnone⟩ := h
        rcases List.mem_cons.mp hb' with rfl | hmem
        · exact absurd hnone (by simp [sortKey, hb, Except.toOption])
        · exact ⟨b', hmem, hnone⟩
      obtain ⟨m, hm⟩ := ih hbs
      exact ⟨m, by simp [computeKeys, hb, hm]⟩

/-- Evaluation of `home` on the success-with-data path when every block
number parses: the blocks come out stably sorted descending, the
transactions are the flattening of the sorted blocks, and `error` is
`None`. -/
theorem home_data (body : String) (block? : Option (List Block)) (errs? : Option String)
    (h : ∀ b ∈ block?.getD [], (sortKey b).isSome) :
    home (.ok 200 body (some { data? := some (.obj block?), errors? := errs? }))
      = { blocks := sortBlocks (block?.getD []),
          transactions := flattenTxs (sortBlocks (block?.getD [])),
          logs := [], events := [], error := none } := by
  obtain ⟨ks, hks⟩ := computeKeys_ok _ h
  simp [home, homeRoute, homeBody, fetch_graphql_data, hks, Except.toOption]

/-- `sortBlocks` is idempotent: sorting an already-sorted list leaves it
unchanged (Python's stable sort likewise). -/
theorem sortBlocks_idem (bs : List Block) : sortBlocks (sortBlocks bs) = sortBlocks bs :=
  List.Sorted.insertionSort_eq (List.sorted_insertionSort blockGe bs)

/-! ### Sample data for witnesses -/

/-- A sample transaction. -/
def mkTx (h : String) : Transaction :=
  { hash := h, blockNumber := "", fromAddr := "a", toAddr := "b", value := "0", gas := "0" }

/-- A sample block with the given `"number"` string and transactions. -/
def blk (n : String) (ts : List Transaction) : Block :=
  { hash := "h" ++ n, number? := some n, time := "0", gasUsed := "0", gasLimit := "0",
    size := "0", transactions? := some ts }

/-! ### The claims -/

/-- Claim C1: for every block list of a successful payload whose `"number"`
fields parse (hex `"0x..."` or plain decimal), the output block sequence is
sorted by numeric block number in descending order, and both encodings are
parsed into the same integer domain (`"0x1a"` and `"26"` both map to 26, so
they compare equal); the output is a permutation of the input. -/
theorem C1_sorted_descending (bs : List Block)
    (h : ∀ b ∈ bs, (sortKey b).isSome) :
    List.Sorted blockGe (home (successResult bs)).blocks
    ∧ (home (successResult bs)).blocks.Perm bs
    ∧ numberKey "0x1a" = some 26 ∧ numberKey "26" = some 26 := by
  have hd := home_data "" (some bs) none (by simpa using h)
  simp only [successResult]
  rw [hd]
  exact ⟨List.sorted_insertionSort blockGe bs, List.perm_insertionSort blockGe bs,
    by decide, by decide⟩

/-- A mixed hex/decimal block list: keys 26, 26, 2. -/
def bsC1 : List Block := [blk "26" [], blk "0x1a" [], blk "0x2" []]

/-- Witness for C1 at a concrete mixed-encoding block list. -/
theorem C1_sorted_descending_witness :
    (∀ b ∈ bsC1, (sortKey b).isSome)
    ∧ (List.Sorted blockGe (home (successResult bsC1)).blocks
       ∧ (home (successResult bsC1)).blocks.Perm bsC1
       ∧ numberKey "0x1a" = some 26 ∧ numberKey "26" = some 26) :=
  ⟨by decide, C1_sorted_descending bsC1 (by decide)⟩

/-- Claim C2: for every block list of a successful payload, the output
transaction list is the concatenation, over the sorted blocks in order, of
each block's own transaction list (per-block internal order preserved;
transaction-less blocks contribute nothing). -/
theorem C2_flatten_concat (bs : List Block)
    (h : ∀ b ∈ bs, (sortKey b).isSome) :
    (home (successResult bs)).blocks = sortBlocks bs
    ∧ (home (successResult bs)).transactions
      = ((home (successResult bs)).blocks.map (fun b => b.transactions?.getD [])).flatten := by
  have hd := home_data "" (some bs) none (by simpa using h)
  simp only [successResult]
  rw [hd]
  exact ⟨rfl, flattenTxs_eq (sortBlocks bs)⟩

/-- Two blocks, the lower-numbered first, each with one transaction. -/
def bsC2 : List Block := [blk "0x1" [mkTx "t1"], blk "0x2" [mkTx "t2"]]

/-- Witness for C2 at a concrete two-block list. -/
theorem C2_flatten_concat_witness :
    (∀ b ∈ bsC2, (sortKey b).isSome)
    ∧ ((home (successResult bsC2)).blocks = sortBlocks bsC2
       ∧ (home (successResult bsC2)).transactions
         = ((home (successResult bsC2)).blocks.map (fun b => b.transactions?.getD [])).flatten) :=
  ⟨by decide, C2_flatten_concat bsC2 (by decide)⟩

/-- Claim C3 (refuted — code bug): when the outbound call times out, the
timeout is caught by the bare `except` inside `fetch_graphql_data`, which
returns `None`; the `except httpx.TimeoutException` handler of `home`
(lines 126–128) is unreachable, so the ViewModel carries the *generic*
failed-to-fetch message, not the timeout-specific one. -/
theorem C3_timeout_generic_message :
    home (.raises .timeout) = emptyVM (some "Failed to fetch data from DefraDB")
    ∧ (home (.raises .timeout)).error
      ≠ some "Request to DefraDB timed out. The service might be busy." := by
  decide

/-- Claim C4: the payload `{"data": {"Block": []}}` yields a ViewModel with
empty blocks and transactions and `error = None` — a successful empty result
is not classified as an error. -/
theorem C4_empty_success_no_error :
    home (successResult []) = emptyVM none := by decide

/-- Claim C5: a 200 payload without a `"data"` key yields empty blocks and
transactions; with an `"errors"` key the error embeds the GraphQL error
payload, and with neither key it is the generic failed-to-fetch message. -/
theorem C5_no_data_key (body errs : String) :
    home (.ok 200 body (some { data? := none, errors? := some errs }))
      = emptyVM (some ("GraphQL Error: " ++ errs))
    ∧ home (.ok 200 body (some { data? := none, errors? := none }))
      = emptyVM (some "Failed to fetch data from DefraDB") :=
  ⟨rfl, rfl⟩

/-- Claim C6: every non-200 response makes `fetch_graphql_data` return
`None` — the response body, even a well-formed GraphQL payload, is never
surfaced as data — and the resulting ViewModel has its error set and no
blocks. -/
theorem C6_non200_not_surfaced (status : Nat) (body : String) (json? : Option Payload)
    (h : status ≠ 200) :
    fetch_graphql_data (.ok status body json?) = none
    ∧ home (.ok status body json?) = emptyVM (some "Failed to fetch data from DefraDB") := by
  have hf : fetch_graphql_data (.ok status body json?) = none := by
    simp [fetch_graphql_data, h]
  refine ⟨hf, ?_⟩
  simp [home, homeRoute, homeBody, hf, Except.toOption, emptyVM]

/-- A parseable payload that a 500 response might carry in its body. -/
def payloadC6 : Payload := { data? := some (.obj (some [blk "0x1" [mkTx "t1"]])), errors? := none }

/-- Witness for C6 at a 500 response carrying a parseable body. -/
theorem C6_non200_not_surfaced_witness :
    (500 ≠ 200)
    ∧ (fetch_graphql_data (.ok 500 "Internal Server Error" (some payloadC6)) = none
       ∧ home (.ok 500 "Internal Server Error" (some payloadC6))
         = emptyVM (some "Failed to fetch data from DefraDB")) :=
  ⟨by decide, C6_non200_not_surfaced 500 "Internal Server Error" (some payloadC6) (by decide)⟩

/-- Claim C7: for every transport behaviour the route produces a ViewModel —
`homeRoute` never lets an exception escape to the route layer — and whenever
the try-body raises, the exception is converted into the ViewModel's error
field with both data lists empty. -/
theorem C7_always_rendered (t : TransportResult) :
    (∃ vm, homeRoute t = .ok vm)
    ∧ ∀ e, homeBody t = .error e →
        (home t).error.isSome = true ∧ (home t).blocks = [] ∧ (home t).transactions = [] := by
  refine ⟨?_, fun e he => ?_⟩
  · cases hr : homeRoute t with
    | ok vm => exact ⟨vm, rfl⟩
    | error e => exfalso; unfold homeRoute at hr; split at hr <;> simp_all
  · cases e <;> simp [home, homeRoute, he, Except.toOption, emptyVM]

/-- A 200 response whose payload is `{"data": null}`, on which the try-body
raises (`None.get`). -/
def tC7 : TransportResult := .ok 200 "" (some { data? := some .null, errors? := none })

/-- Witness for C7 at a payload whose `"data"` is JSON `null`. -/
theorem C7_always_rendered_witness :
    (∃ vm, homeRoute tC7 = .ok vm)
    ∧ ((home tC7).error.isSome = true ∧ (home tC7).blocks = [] ∧ (home tC7).transactions = []) :=
  ⟨(C7_always_rendered tC7).1,
   (C7_always_rendered tC7).2 (.exn "'NoneType' object has no attribute 'get'") rfl⟩

/-- Claim C8: normalization is a pure function of the fetch outcome — two
runs on the same outcome yield identical ViewModels.  The only in-place
mutation a run performs (the payload's `Block` array ends up sorted, as
`afterRun` records) does not change the result of a second run, since the
stable sort is idempotent. -/
theorem C8_pure_idempotent (t : TransportResult) :
    home t = home t ∧ home (afterRun t) = home t := by
  refine ⟨rfl, ?_⟩
  cases t with
  | raises e => rfl
  | ok status body json? =>
    rcases json? with _ | ⟨d?, e?⟩
    · rfl
    rcases d? with _ | dv
    · rfl
    rcases dv with _ | block?
    · rfl
    rcases block? with _ | bs
    · rfl
    by_cases hs : status = 200
    · subst hs
      by_cases hall : bs.all (fun b => (sortKey b).isSome) = true
      · have h1 : ∀ b ∈ bs, (sortKey b).isSome = true := List.all_eq_true.mp hall
        have h2 : ∀ b ∈ sortBlocks bs, (sortKey b).isSome = true := by
          intro b hb
          simp only [sortBlocks, List.mem_insertionSort] at hb
          exact h1 b hb
        have hAR : afterRun (.ok 200 body (some { data? := some (.obj (some bs)), errors? := e? }))
            = .ok 200 body (some { data? := some (.obj (some (sortBlocks bs))), errors? := e? }) := by
          simp [afterRun, hall]
        have hA := home_data body (some (sortBlocks bs)) e? (by simpa using h2)
        have hB := home_data body (some bs) e? (by simpa using h1)
        rw [hAR, hA, hB]
        simp [sortBlocks_idem]
      · have hAR : afterRun (.ok 200 body (some { data? := some (.obj (some bs)), errors? := e? }))
            = .ok 200 body (some { data? := some (.obj (some bs)), errors? := e? }) := by
          simp [afterRun, hall]
        rw [hAR]
    · have hAR : afterRun (.ok status body (some { data? := some (.obj (some bs)), errors? := e? }))
          = .ok status body (some { data? := some (.obj (some bs)), errors? := e? }) := by
        simp [afterRun, hs]
      rw [hAR]

/-- Claim C9: in every ViewModel the pipeline produces, a non-null error
implies blocks and transactions are both empty, and successful extraction of
block data implies the error is null. -/
theorem C9_error_iff_empty (t : TransportResult) :
    ((home t).error.isSome = true → (home t).blocks = [] ∧ (home t).transactions = [])
    ∧ (extractionOk t → (home t).error = none) := by
  refine ⟨?_, ?_⟩
  · cases t with
    | raises e => intro _; exact ⟨rfl, rfl⟩
    | ok status body json? =>
      by_cases hs : status = 200
      · subst hs
        rcases json? with _ | ⟨d?, e?⟩
        · intro _; exact ⟨rfl, rfl⟩
        rcases d? with _ | dv
        · rcases e? with _ | errs
          · intro _; exact ⟨rfl, rfl⟩
          · intro _; exact ⟨rfl, rfl⟩
        rcases dv with _ | block?
        · intro _; exact ⟨rfl, rfl⟩
        cases hk : computeKeys (block?.getD []) with
        | error e =>
          cases e with
          | timeout =>
            intro _
            constructor <;>
              simp [home, homeRoute, homeBody, fetch_graphql_data, hk, Except.toOption, emptyVM]
          | exn m =>
            intro _
            constructor <;>
              simp [home, homeRoute, homeBody, fetch_graphql_data, hk, Except.toOption, emptyVM]
        | ok ks =>
          intro herr
          exfalso
          have hnone : (home (.ok 200 body (some { data? := some (.obj block?), errors? := e? }))).error
              = none := by
            simp [home, homeRoute, homeBody, fetch_graphql_data, hk, Except.toOption]
          rw [hnone] at herr
          simp at herr
      · have hf : fetch_graphql_data (.ok status body json?) = none := by
          simp [fetch_graphql_data, hs]
        intro _
        constructor <;> simp [home, homeRoute, homeBody, hf, Except.toOption, emptyVM]
  · rintro ⟨body, block?, errs?, rfl, hkeys⟩
    rw [home_data body block? errs? hkeys]

/-- A generic transport fault (connection refused). -/
def tC9 : TransportResult := .raises (.exn "connection refused")

/-- Witness for C9: a transport fault gives an error with empty data, and a
successful empty extraction gives a null error. -/
theorem C9_error_iff_empty_witness :
    ((home tC9).blocks = [] ∧ (home tC9).transactions = [])
    ∧ (home (successResult [])).error = none :=
  ⟨(C9_error_iff_empty tC9).1 (by decide),
   (C9_error_iff_empty (successResult [])).2 ⟨"", some [], none, rfl, by simp⟩⟩

/-- Claim C10: if any block of a successful payload lacks a `"number"` field
or carries one that does not parse in the expected encodings, the whole
request degrades atomically: empty blocks, empty transactions (no partial
list of the well-formed blocks) and a non-null generic error message. -/
theorem C10_atomic_degradation (body : String) (bs : List Block) (errs? : Option String)
    (h : ∃ b ∈ bs, sortKey b = none) :
    (home (.ok 200 body (some { data? := some (.obj (some bs)), errors? := errs? }))).blocks = []
    ∧ (home (.ok 200 body (some { data? := some (.obj (some bs)), errors? := errs? }))).transactions = []
    ∧ ∃ m, (home (.ok 200 body (some { data? := some (.obj (some bs)), errors? := errs? }))).error
        = some ("Failed to fetch data from DefraDB: " ++ m) := by
  obtain ⟨m, hm⟩ := computeKeys_error bs h
  have hred : home (.ok 200 body (some { data? := some (.obj (some bs)), errors? := errs? }))
      = emptyVM (some ("Failed to fetch data from DefraDB: " ++ m)) := by
    simp [home, homeRoute, homeBody, fetch_graphql_data, hm, Except.toOption, PyExn.str, emptyVM]
  rw [hred]
  exact ⟨rfl, rfl, m, rfl⟩

/-- A well-formed block followed by a block with no `"number"` field. -/
def bsC10 : List Block :=
  [blk "0x2" [mkTx "t2"],
   { hash := "x", number? := none, time := "0", gasUsed := "0", gasLimit := "0",
     size := "0", transactions? := some [mkTx "t3"] }]

/-- The 200 response carrying `bsC10`. -/
def tC10 : TransportResult :=
  .ok 200 "" (some { data? := some (.obj (some bsC10)), errors? := none })

/-- Witness for C10 at a list holding one good block and one block without a
`"number"` field: even the good block is dropped. -/
theorem C10_atomic_degradation_witness :
    (∃ b ∈ bsC10, sortKey b = none)
    ∧ ((home tC10).blocks = [] ∧ (home tC10).transactions = []
       ∧ ∃ m, (home tC10).error = some ("Failed to fetch data from DefraDB: " ++ m)) :=
  ⟨by decide, C10_atomic_degradation "" bsC10 none (by decide)⟩
